import Mathlib

/-!
Verification of the PythonMC bridge client (`pythonmc.py`).

The repository's core is `PythonMCBridge.send_command`: it frames a JSON
request on the outbound stream with a `BRIDGE:` marker and scans the inbound
stream line by line (at most 100 lines) for a reply whose `id` field echoes
the request identifier.  The facade classes (`Engine`, `Node`, `CameraNode`,
`AudioPlayerNode`) each translate to a single `send_command` call.

Modelling choices (shallow embedding):
* Python strings are modelled as `List Char` (a Python `str` is a sequence of
  code points).
* JSON numbers are modelled as integers (`Int`); floating point is outside
  the scope of the verified claims, which only concern structural framing,
  identifier correlation, status dispatch and the scan bound.
* `json.loads` is modelled by a fuel-indexed recursive-descent parser
  (`loads`); `json.dumps` by `dumps` with CPython's default separators
  (item separator is a comma and a space, key separator a colon and a space)
  and `ensure_ascii` escaping.
* The nondeterministic `uuid.uuid4()` is abstracted by passing the generated
  request identifier as an explicit parameter.
* The inbound stream is a total function `Nat -> List Char` giving the n-th
  line returned by `sys.stdin.readline().strip()`s underlying `readline`
  (at end of stream `readline` returns the empty string, which is a
  perfectly good value of the model).
* Exceptions are modelled by `Except BridgeError`.  `RuntimeError` (bridge
  disabled) is `channelDisabled`; `json.JSONDecodeError` escaping from
  `json.loads` is `parseError`; the `AttributeError` raised by calling
  `.get` on a non-dict value is `attrError`; the generic `Exception` raised
  on a `status == "error"` reply is `hostError` (it carries the value of
  `response.get('error', 'Unknown error')`, which CPython interpolates into
  the message text); `TimeoutError` is `timeout`.
-/

/-- A Python string: a sequence of code points. -/
abbrev Str := List Char

/-- Convert a Lean string literal to the `Str` model. -/
def strL (s : String) : Str := s.toList

/-- JSON values, as produced by `json.loads` / consumed by `json.dumps`.
Numbers are modelled as integers (see the module comment). -/
inductive Json where
  | null : Json
  | bool (b : Bool) : Json
  | num (n : Int) : Json
  | str (s : Str) : Json
  | arr (elems : List Json) : Json
  | obj (fields : List (Str × Json)) : Json

mutual

/-- Decidable equality on `Json` (the nested inductive defeats `deriving`). -/
def Json.decEq : (a b : Json) → Decidable (a = b)
  | .null, .null => isTrue rfl
  | .bool a, .bool b =>
    if h : a = b then isTrue (by rw [h]) else isFalse (fun hh => h (by injection hh))
  | .num a, .num b =>
    if h : a = b then isTrue (by rw [h]) else isFalse (fun hh => h (by injection hh))
  | .str a, .str b =>
    if h : a = b then isTrue (by rw [h]) else isFalse (fun hh => h (by injection hh))
  | .arr a, .arr b =>
    match Json.decEqList a b with
    | isTrue h => isTrue (by rw [h])
    | isFalse h => isFalse (fun hh => h (by injection hh))
  | .obj a, .obj b =>
    match Json.decEqFields a b with
    | isTrue h => isTrue (by rw [h])
    | isFalse h => isFalse (fun hh => h (by injection hh))
  | .null, .bool _ => isFalse (fun h => by injection h)
  | .null, .num _ => isFalse (fun h => by injection h)
  | .null, .str _ => isFalse (fun h => by injection h)
  | .null, .arr _ => isFalse (fun h => by injection h)
  | .null, .obj _ => isFalse (fun h => by injection h)
  | .bool _, .null => isFalse (fun h => by injection h)
  | .bool _, .num _ => isFalse (fun h => by injection h)
  | .bool _, .str _ => isFalse (fun h => by injection h)
  | .bool _, .arr _ => isFalse (fun h => by injection h)
  | .bool _, .obj _ => isFalse (fun h => by injection h)
  | .num _, .null => isFalse (fun h => by injection h)
  | .num _, .bool _ => isFalse (fun h => by injection h)
  | .num _, .str _ => isFalse (fun h => by injection h)
  | .num _, .arr _ => isFalse (fun h => by injection h)
  | .num _, .obj _ => isFalse (fun h => by injection h)
  | .str _, .null => isFalse (fun h => by injection h)
  | .str _, .bool _ => isFalse (fun h => by injection h)
  | .str _, .num _ => isFalse (fun h => by injection h)
  | .str _, .arr _ => isFalse (fun h => by injection h)
  | .str _, .obj _ => isFalse (fun h => by injection h)
  | .arr _, .null => isFalse (fun h => by injection h)
  | .arr _, .bool _ => isFalse (fun h => by injection h)
  | .arr _, .num _ => isFalse (fun h => by injection h)
  | .arr _, .str _ => isFalse (fun h => by injection h)
  | .arr _, .obj _ => isFalse (fun h => by injection h)
  | .obj _, .null => isFalse (fun h => by injection h)
  | .obj _, .bool _ => isFalse (fun h => by injection h)
  | .obj _, .num _ => isFalse (fun h => by injection h)
  | .obj _, .str _ => isFalse (fun h => by injection h)
  | .obj _, .arr _ => isFalse (fun h => by injection h)

/-- Decidable equality on lists of `Json` values. -/
def Json.decEqList : (a b : List Json) → Decidable (a = b)
  | [], [] => isTrue rfl
  | [], _ :: _ => isFalse (fun h => by injection h)
  | _ :: _, [] => isFalse (fun h => by injection h)
  | x :: xs, y :: ys =>
    match Json.decEq x y with
    | isTrue h1 =>
      match Json.decEqList xs ys with
      | isTrue h2 => isTrue (by rw [h1, h2])
      | isFalse h2 => isFalse (fun hh => h2 (by injection hh))
    | isFalse h1 => isFalse (fun hh => h1 (by injection hh))

/-- Decidable equality on field lists of JSON objects. -/
def Json.decEqFields : (a b : List (Str × Json)) → Decidable (a = b)
  | [], [] => isTrue rfl
  | [], _ :: _ => isFalse (fun h => by injection h)
  | _ :: _, [] => isFalse (fun h => by injection h)
  | (k1, v1) :: xs, (k2, v2) :: ys =>
    if hk : k1 = k2 then
      match Json.decEq v1 v2 with
      | isTrue hv =>
        match Json.decEqFields xs ys with
        | isTrue ht => isTrue (by rw [hk, hv, ht])
        | isFalse ht => isFalse (fun hh => ht (by injection hh))
      | isFalse hv =>
        isFalse (fun hh => by
          injection hh with hp ht
          exact hv (congrArg Prod.snd hp))
    else
      isFalse (fun hh => by
        injection hh with hp ht
        exact hk (congrArg Prod.fst hp))

end

instance : DecidableEq Json := Json.decEq

/-- `dict.get(key)` on the field list of a parsed JSON object.  CPython's
dict keeps the last value bound to a duplicated key, so lookup scans from
the right. -/
def dictGet (fields : List (Str × Json)) (k : Str) : Option Json :=
  (fields.reverse.find? (fun p => p.1 = k)).map Prod.snd

/-- Python `str.isspace` on the characters `str.strip()` removes; the
ASCII whitespace characters are the ones that occur in this development. -/
def pyIsSpace (c : Char) : Bool :=
  c = ' ' || c = '\t' || c = '\n' || c = '\r' || c = '\x0b' || c = '\x0c'

/-- Python `str.strip()`: remove leading and trailing whitespace. -/
def pyStrip (s : Str) : Str :=
  ((s.dropWhile pyIsSpace).reverse.dropWhile pyIsSpace).reverse

/-! ### A model of `json.loads` (recursive descent, fuel-indexed) -/

/-- JSON insignificant whitespace. -/
def jsonWs (c : Char) : Bool :=
  c = ' ' || c = '\t' || c = '\n' || c = '\r'

/-- Drop insignificant whitespace. -/
def skipWs (s : Str) : Str := s.dropWhile jsonWs

/-- Value of a hexadecimal digit. -/
def hexVal (c : Char) : Option Nat :=
  if '0' ≤ c && c ≤ '9' then some (c.toNat - 48)
  else if 'a' ≤ c && c ≤ 'f' then some (c.toNat - 87)
  else if 'A' ≤ c && c ≤ 'F' then some (c.toNat - 55)
  else none

/-- Decode a two-character escape (the character after the backslash). -/
def escChar (c : Char) : Option Char :=
  if c = '"' then some '"'
  else if c = '\\' then some '\\'
  else if c = '/' then some '/'
  else if c = 'b' then some '\x08'
  else if c = 'f' then some '\x0c'
  else if c = 'n' then some '\n'
  else if c = 'r' then some '\r'
  else if c = 't' then some '\t'
  else none

/-- Parse the body of a JSON string (the opening quote already consumed),
returning the decoded characters and the input after the closing quote.
`\uXXXX` escapes decode to the code point `XXXX` (surrogate-pair joining,
which none of the verified claims exercise, is not modelled). -/
def parseStringBody : Str → Option (Str × Str)
  | [] => none
  | '"' :: rest => some ([], rest)
  | '\\' :: 'u' :: h1 :: h2 :: h3 :: h4 :: rest => do
      let v1 ← hexVal h1
      let v2 ← hexVal h2
      let v3 ← hexVal h3
      let v4 ← hexVal h4
      let (tail, rem) ← parseStringBody rest
      some (Char.ofNat (((v1 * 16 + v2) * 16 + v3) * 16 + v4) :: tail, rem)
  | '\\' :: c :: rest => do
      let e ← escChar c
      let (tail, rem) ← parseStringBody rest
      some (e :: tail, rem)
  | '\\' :: [] => none
  | c :: rest =>
      if c.toNat < 32 then none
      else do
        let (tail, rem) ← parseStringBody rest
        some (c :: tail, rem)

/-- Parse a JSON number.  Only integer literals are modelled (a fraction or
exponent part makes the model reject; see the module comment). -/
def parseNumber (s : Str) : Option (Json × Str) :=
  let (neg, s₁) := match s with
    | '-' :: t => (true, t)
    | _ => (false, s)
  let digits := s₁.takeWhile Char.isDigit
  let rest := s₁.dropWhile Char.isDigit
  if digits.isEmpty then none
  else match rest with
    | '.' :: _ => none
    | 'e' :: _ => none
    | 'E' :: _ => none
    | _ =>
      let n : Nat := digits.foldl (fun a c => a * 10 + (c.toNat - 48)) 0
      some (Json.num (if neg then -(n : Int) else (n : Int)), rest)

mutual

/-- Parse one JSON value (fuel bounds the recursion depth; callers pass
one more than the input length, which every nesting level consumes). -/
def parseValue : Nat → Str → Option (Json × Str)
  | 0, _ => none
  | fuel + 1, s =>
    match skipWs s with
    | 'n' :: 'u' :: 'l' :: 'l' :: rest => some (Json.null, rest)
    | 't' :: 'r' :: 'u' :: 'e' :: rest => some (Json.bool true, rest)
    | 'f' :: 'a' :: 'l' :: 's' :: 'e' :: rest => some (Json.bool false, rest)
    | '"' :: rest => (parseStringBody rest).map (fun p => (Json.str p.1, p.2))
    | '[' :: rest =>
      (match skipWs rest with
       | ']' :: rem => some (Json.arr [], rem)
       | _ => (parseElems fuel rest).map (fun p => (Json.arr p.1, p.2)))
    | '\x7b' :: rest =>
      (match skipWs rest with
       | '\x7d' :: rem => some (Json.obj [], rem)
       | _ => (parseMembers fuel rest).map (fun p => (Json.obj p.1, p.2)))
    | s' => parseNumber s'

/-- Parse the elements of a non-empty JSON array, up to and including the
closing bracket. -/
def parseElems : Nat → Str → Option (List Json × Str)
  | 0, _ => none
  | fuel + 1, s => do
    let (v, rest) ← parseValue fuel s
    match skipWs rest with
    | ',' :: rest₂ => do
        let (l, rem) ← parseElems fuel rest₂
        some (v :: l, rem)
    | ']' :: rem => some ([v], rem)
    | _ => none

/-- Parse the members of a non-empty JSON object, up to and including the
closing brace. -/
def parseMembers : Nat → Str → Option (List (Str × Json) × Str)
  | 0, _ => none
  | fuel + 1, s =>
    match skipWs s with
    | '"' :: rest => do
      let (k, rest₁) ← parseStringBody rest
      match skipWs rest₁ with
      | ':' :: rest₂ => do
        let (v, rest₃) ← parseValue fuel rest₂
        match skipWs rest₃ with
        | ',' :: rest₄ => do
            let (l, rem) ← parseMembers fuel rest₄
            some ((k, v) :: l, rem)
        | '\x7d' :: rem => some ([(k, v)], rem)
        | _ => none
      | _ => none
    | _ => none

end

/-- Model of `json.loads`: parse a complete JSON document; trailing
non-whitespace makes the whole parse fail, as CPython raises Extra data. -/
def loads (s : Str) : Option Json :=
  match parseValue (s.length + 1) s with
  | some (v, rest) => if (skipWs rest).isEmpty then some v else none
  | none => none

/-! ### A model of `json.dumps` (default separators, `ensure_ascii`) -/

/-- Lowercase hexadecimal digit. -/
def hexDigitChar (n : Nat) : Char :=
  if n < 10 then Char.ofNat (48 + n) else Char.ofNat (87 + n)

/-- Four-digit lowercase hexadecimal rendering. -/
def hex4 (n : Nat) : Str :=
  [hexDigitChar (n / 4096 % 16), hexDigitChar (n / 256 % 16),
   hexDigitChar (n / 16 % 16), hexDigitChar (n % 16)]

/-- Escaping of one character inside a JSON string, as `json.dumps` does
with its default `ensure_ascii=True`. -/
def escapeChar (c : Char) : Str :=
  if c = '"' then ['\\', '"']
  else if c = '\\' then ['\\', '\\']
  else if c = '\n' then ['\\', 'n']
  else if c = '\t' then ['\\', 't']
  else if c = '\r' then ['\\', 'r']
  else if c = '\x08' then ['\\', 'b']
  else if c = '\x0c' then ['\\', 'f']
  else if c.toNat < 32 then '\\' :: 'u' :: hex4 c.toNat
  else if c.toNat < 127 then [c]
  else if c.toNat < 65536 then '\\' :: 'u' :: hex4 c.toNat
  else
    let v := c.toNat - 65536
    '\\' :: 'u' :: hex4 (55296 + v / 1024) ++ '\\' :: 'u' :: hex4 (56320 + v % 1024)

/-- Serialize a Python string to a quoted JSON string literal. -/
def dumpsStr (s : Str) : Str :=
  '"' :: (s.map escapeChar).flatten ++ ['"']

/-- Python `str(int)`. -/
def intStr (n : Int) : Str :=
  if n < 0 then '-' :: Nat.toDigits 10 (-n).toNat else Nat.toDigits 10 n.toNat

mutual

/-- Model of `json.dumps` with CPython's default separators: items are
joined by a comma and a space, keys and values by a colon and a space. -/
def dumps : Json → Str
  | Json.null => strL "null"
  | Json.bool true => strL "true"
  | Json.bool false => strL "false"
  | Json.num n => intStr n
  | Json.str s => dumpsStr s
  | Json.arr [] => strL "[]"
  | Json.arr (v :: vs) => '[' :: (dumps v ++ dumpsArrTail vs ++ [']'])
  | Json.obj [] => strL "\x7b\x7d"
  | Json.obj (f :: fs) => '\x7b' :: (dumpsField f ++ dumpsObjTail fs ++ ['\x7d'])

/-- Remaining array items, each preceded by the item separator. -/
def dumpsArrTail : List Json → Str
  | [] => []
  | v :: vs => ',' :: ' ' :: (dumps v ++ dumpsArrTail vs)

/-- One object member: serialized key, key separator, serialized value. -/
def dumpsField : Str × Json → Str
  | (k, v) => dumpsStr k ++ ':' :: ' ' :: dumps v

/-- Remaining object members, each preceded by the item separator. -/
def dumpsObjTail : List (Str × Json) → Str
  | [] => []
  | f :: fs => ',' :: ' ' :: (dumpsField f ++ dumpsObjTail fs)

end

/-! ### The bridge core: `PythonMCBridge.send_command` -/

/-- The fixed marker token distinguishing protocol traffic. -/
def marker : Str := strL "BRIDGE:"

/-- Exceptions `send_command` can raise.
* `channelDisabled`: the `RuntimeError` raised when the bridge is not enabled.
* `parseError s`: the `json.JSONDecodeError` escaping from `json.loads(s)`
  on a marker-prefixed line whose remainder is not valid JSON.
* `attrError`: the `AttributeError` raised by `response.get(...)` when the
  parsed reply is not a dict.
* `hostError d`: the `Exception` raised on a reply with `status == "error"`;
  `d` is the value of `response.get('error', 'Unknown error')` that CPython
  interpolates into the message text.
* `timeout`: the `TimeoutError` raised when the 100-line bound is exhausted. -/
inductive BridgeError where
  | channelDisabled : BridgeError
  | parseError (payload : Str) : BridgeError
  | attrError : BridgeError
  | hostError (detail : Json) : BridgeError
  | timeout : BridgeError
deriving DecidableEq

/-- How one iteration of the read loop treats the line it read, before the
status dispatch.  `skip` covers a line without the marker after stripping,
and a well-formed reply object whose `id` differs from the request's. -/
inductive LineStep where
  | skip : LineStep
  | fail (payload : Str) : LineStep
  | attr : LineStep
  | matched (fields : List (Str × Json)) : LineStep
deriving DecidableEq

/-- Classification of an already-stripped line, mirroring lines 46 to 48 of
`pythonmc.py`: test for the marker, `json.loads` the remainder after the
seven marker characters, then compare `response.get("id")` with the
request identifier (`.get` on a non-dict raises `AttributeError`). -/
def classifyStripped (request_id : Str) (l : Str) : LineStep :=
  if marker.isPrefixOf l then
    match loads (l.drop 7) with
    | none => LineStep.fail (l.drop 7)
    | some (Json.obj fields) =>
      if dictGet fields (strL "id") = some (Json.str request_id) then
        LineStep.matched fields
      else
        LineStep.skip
    | some _ => LineStep.attr
  else
    LineStep.skip

/-- Classification of a raw inbound line: `sys.stdin.readline().strip()`
runs before the marker test (line 45 of `pythonmc.py`). -/
def classify (request_id : Str) (line : Str) : LineStep :=
  classifyStripped request_id (pyStrip line)

/-- Whether a raw inbound line yields a reply matching the request. -/
def lineMatchB (request_id : Str) (line : Str) : Bool :=
  match classify request_id line with
  | LineStep.matched _ => true
  | _ => false

/-- The read loop of `send_command` (lines 44 to 53 of `pythonmc.py`):
`fuel` is the number of remaining iterations of `for _ in range(100)`,
`pos` the index of the next inbound line.  On a matched reply the status
dispatch of lines 49 to 51 runs; exhausting the fuel raises `TimeoutError`. -/
def scanResult (request_id : Str) (stdin : Nat → Str) : Nat → Nat → Except BridgeError Json
  | 0, _ => Except.error BridgeError.timeout
  | fuel + 1, pos =>
    match classify request_id (stdin pos) with
    | LineStep.skip => scanResult request_id stdin fuel (pos + 1)
    | LineStep.fail payload => Except.error (BridgeError.parseError payload)
    | LineStep.attr => Except.error BridgeError.attrError
    | LineStep.matched fields =>
      if dictGet fields (strL "status") = some (Json.str (strL "error")) then
        Except.error
          (BridgeError.hostError ((dictGet fields (strL "error")).getD (Json.str (strL "Unknown error"))))
      else
        Except.ok ((dictGet fields (strL "result")).getD (Json.obj []))

/-- Number of `readline` calls the read loop performs (same recursion as
`scanResult`, counting one read per iteration). -/
def scanCount (request_id : Str) (stdin : Nat → Str) : Nat → Nat → Nat
  | 0, _ => 0
  | fuel + 1, pos =>
    match classify request_id (stdin pos) with
    | LineStep.skip => scanCount request_id stdin fuel (pos + 1) + 1
    | _ => 1

/-- Decidable equality for `Except` outcomes. -/
instance {ε α : Type} [DecidableEq ε] [DecidableEq α] : DecidableEq (Except ε α) := fun a b =>
  match a, b with
  | Except.ok x, Except.ok y =>
    if h : x = y then isTrue (by rw [h]) else isFalse (fun hh => h (by injection hh))
  | Except.error x, Except.error y =>
    if h : x = y then isTrue (by rw [h]) else isFalse (fun hh => h (by injection hh))
  | Except.ok _, Except.error _ => isFalse (fun h => by injection h)
  | Except.error _, Except.ok _ => isFalse (fun h => by injection h)

/-- Observable outcome of one `send_command` call: the returned value or
raised exception, the lines written to stdout, and the number of lines
read from stdin. -/
structure CallResult where
  result : Except BridgeError Json
  written : List Str
  linesRead : Nat
deriving DecidableEq

/-- The enabled flag from `PythonMCBridge.__init__`:
`os.environ.get("PYTHONMC_BRIDGE_ENABLED") == "1"`. -/
def PythonMCBridge.enabledFromEnv (environ : Str → Option Str) : Bool :=
  environ (strL "PYTHONMC_BRIDGE_ENABLED") = some (strL "1")

/-- `PythonMCBridge.send_command` (lines 25 to 53 of `pythonmc.py`).  The
freshly generated `uuid.uuid4()` string is the explicit `request_id`
parameter.  When the bridge is disabled the `RuntimeError` is raised before
any stream is touched; otherwise the request dict is serialized in literal
key order, written as one marker-prefixed line, and the read loop runs with
a bound of 100 lines. -/
def PythonMCBridge.send_command (bridge_enabled : Bool) (request_id : Str)
    (command : Str) (params : Json) (stdin : Nat → Str) : CallResult :=
  if bridge_enabled then
    let request := Json.obj
      [(strL "id", Json.str request_id),
       (strL "command", Json.str command),
       (strL "params", params)]
    let message := marker ++ dumps request
    { result := scanResult request_id stdin 100 0,
      written := [message],
      linesRead := scanCount request_id stdin 100 0 }
  else
    { result := Except.error BridgeError.channelDisabled,
      written := [],
      linesRead := 0 }

/-! ### The typed facade -/

/-- `Node.set_property` (lines 148 to 160): one `send_command` with the
literal params dict in source order. -/
def Node.set_property (bridge_enabled : Bool) (request_id node_id : Str)
    (property : Str) (value : Json) (stdin : Nat → Str) : CallResult :=
  PythonMCBridge.send_command bridge_enabled request_id (strL "set_property")
    (Json.obj
      [(strL "node_id", Json.str node_id),
       (strL "property", Json.str property),
       (strL "value", value)])
    stdin

/-- `CameraNode.move` (lines 205 to 217): `set_property("position", [x, y, z])`.
The numeric coordinates are modelled as integers. -/
def CameraNode.move (bridge_enabled : Bool) (request_id node_id : Str)
    (x y z : Int) (stdin : Nat → Str) : CallResult :=
  Node.set_property bridge_enabled request_id node_id (strL "position")
    (Json.arr [Json.num x, Json.num y, Json.num z]) stdin

/-- The normalization `result if isinstance(result, list) else []` of
`Engine.list_nodes` (line 127). -/
def listNormalize : Json → Json
  | Json.arr l => Json.arr l
  | _ => Json.arr []

/-- `Engine.list_nodes` (lines 118 to 127): one `send_command` whose
successful result is normalized to a list; exceptions propagate. -/
def Engine.list_nodes (bridge_enabled : Bool) (request_id : Str)
    (stdin : Nat → Str) : CallResult :=
  let c := PythonMCBridge.send_command bridge_enabled request_id
    (strL "list_nodes") (Json.obj []) stdin
  { c with result := c.result.map listNormalize }

/-! ### Helper lemmas about the read loop -/

theorem scanResult_step (request_id : Str) (stdin : Nat → Str) (fuel pos : Nat) :
    scanResult request_id stdin (fuel + 1) pos =
      (match classify request_id (stdin pos) with
       | LineStep.skip => scanResult request_id stdin fuel (pos + 1)
       | LineStep.fail payload => Except.error (BridgeError.parseError payload)
       | LineStep.attr => Except.error BridgeError.attrError
       | LineStep.matched fields =>
         if dictGet fields (strL "status") = some (Json.str (strL "error")) then
           Except.error
             (BridgeError.hostError ((dictGet fields (strL "error")).getD (Json.str (strL "Unknown error"))))
         else
           Except.ok ((dictGet fields (strL "result")).getD (Json.obj []))) := rfl

theorem scanResult_skip {request_id : Str} {stdin : Nat → Str} {fuel pos : Nat}
    (h : classify request_id (stdin pos) = LineStep.skip) :
    scanResult request_id stdin (fuel + 1) pos = scanResult request_id stdin fuel (pos + 1) := by
  rw [scanResult_step, h]

theorem scanResult_fail {request_id : Str} {stdin : Nat → Str} {fuel pos : Nat} {payload : Str}
    (h : classify request_id (stdin pos) = LineStep.fail payload) :
    scanResult request_id stdin (fuel + 1) pos = Except.error (BridgeError.parseError payload) := by
  rw [scanResult_step, h]

theorem scanResult_matched {request_id : Str} {stdin : Nat → Str} {fuel pos : Nat}
    {fields : List (Str × Json)}
    (h : classify request_id (stdin pos) = LineStep.matched fields) :
    scanResult request_id stdin (fuel + 1) pos =
      (if dictGet fields (strL "status") = some (Json.str (strL "error")) then
        Except.error
          (BridgeError.hostError ((dictGet fields (strL "error")).getD (Json.str (strL "Unknown error"))))
      else
        Except.ok ((dictGet fields (strL "result")).getD (Json.obj []))) := by
  rw [scanResult_step, h]

theorem scanResult_reach {request_id : Str} {stdin : Nat → Str} :
    ∀ (k m pos : Nat),
      (∀ j, j < k → classify request_id (stdin (pos + j)) = LineStep.skip) →
      scanResult request_id stdin (k + m) pos = scanResult request_id stdin m (pos + k) := by
  intro k
  induction k with
  | zero => intro m pos _; simp
  | succ k ih =>
    intro m pos h
    have h0 : classify request_id (stdin pos) = LineStep.skip := by
      have := h 0 (by omega)
      simpa using this
    have step : scanResult request_id stdin (k + m + 1) pos =
        scanResult request_id stdin (k + m) (pos + 1) := scanResult_skip h0
    have shift : ∀ j, j < k → classify request_id (stdin (pos + 1 + j)) = LineStep.skip := by
      intro j hj
      have := h (j + 1) (by omega)
      rwa [show pos + (j + 1) = pos + 1 + j by omega] at this
    calc scanResult request_id stdin (k + 1 + m) pos
        = scanResult request_id stdin (k + m + 1) pos := by rw [show k + 1 + m = k + m + 1 by omega]
      _ = scanResult request_id stdin (k + m) (pos + 1) := step
      _ = scanResult request_id stdin m (pos + 1 + k) := ih m (pos + 1) shift
      _ = scanResult request_id stdin m (pos + (k + 1)) := by rw [show pos + 1 + k = pos + (k + 1) by omega]

theorem classifyStripped_matched_id {request_id l : Str} {fields : List (Str × Json)}
    (h : classifyStripped request_id l = LineStep.matched fields) :
    dictGet fields (strL "id") = some (Json.str request_id) := by
  unfold classifyStripped at h
  split at h
  · split at h
    · simp at h
    · rename_i fields' _
      split at h
      · rename_i hid
        injection h with hf
        rwa [hf] at hid
      · simp at h
    · simp at h
  · simp at h

theorem classify_matched_id {request_id line : Str} {fields : List (Str × Json)}
    (h : classify request_id line = LineStep.matched fields) :
    dictGet fields (strL "id") = some (Json.str request_id) :=
  classifyStripped_matched_id h

theorem scanResult_ok_inv {request_id : Str} {stdin : Nat → Str} :
    ∀ (fuel pos : Nat) (v : Json),
      scanResult request_id stdin fuel pos = Except.ok v →
      ∃ k, k < fuel ∧
        (∀ j, j < k → classify request_id (stdin (pos + j)) = LineStep.skip) ∧
        ∃ fields, classify request_id (stdin (pos + k)) = LineStep.matched fields ∧
          ¬ dictGet fields (strL "status") = some (Json.str (strL "error")) ∧
          v = (dictGet fields (strL "result")).getD (Json.obj []) := by
  intro fuel
  induction fuel with
  | zero => intro pos v h; exact absurd h (by simp [scanResult])
  | succ fuel ih =>
    intro pos v h
    cases hc : classify request_id (stdin pos) with
    | skip =>
      rw [scanResult_skip hc] at h
      obtain ⟨k, hk, hskip, fields, hm, hs, hv⟩ := ih (pos + 1) v h
      refine ⟨k + 1, by omega, ?_, fields, ?_, hs, hv⟩
      · intro j hj
        cases j with
        | zero => simpa using hc
        | succ j' =>
          have := hskip j' (by omega)
          rwa [show pos + 1 + j' = pos + (j' + 1) by omega] at this
      · rwa [show pos + (k + 1) = pos + 1 + k by omega]
    | fail payload => rw [scanResult_fail hc] at h; exact absurd h (by simp)
    | attr => rw [scanResult_step, hc] at h; exact absurd h (by simp)
    | matched fields =>
      rw [scanResult_matched hc] at h
      split at h
      · exact absurd h (by simp)
      · rename_i hs
        injection h with hv
        exact ⟨0, by omega, by omega, fields, by simpa using hc, hs, hv.symm⟩

theorem scanResult_match_no_timeout {request_id : Str} {stdin : Nat → Str} :
    ∀ (fuel pos k : Nat), k < fuel → lineMatchB request_id (stdin (pos + k)) = true →
      scanResult request_id stdin fuel pos ≠ Except.error BridgeError.timeout := by
  intro fuel
  induction fuel with
  | zero => intro pos k hk; omega
  | succ fuel ih =>
    intro pos k hk hmatch
    cases hc : classify request_id (stdin pos) with
    | skip =>
      cases k with
      | zero =>
        rw [show pos + 0 = pos by omega] at hmatch
        rw [lineMatchB, hc] at hmatch
        exact absurd hmatch (by simp)
      | succ k' =>
        rw [scanResult_skip hc]
        exact ih (pos + 1) k' (by omega)
          (by rwa [show pos + 1 + k' = pos + (k' + 1) by omega])
    | fail payload => rw [scanResult_fail hc]; simp
    | attr => rw [scanResult_step, hc]; simp
    | matched fields => rw [scanResult_matched hc]; split <;> simp

/-! ### Helper lemmas about stripping and whitespace -/

theorem dropWhile_all_append (p : Char → Bool) :
    ∀ (w s : List Char), w.all p = true →
      List.dropWhile p (w ++ s) = List.dropWhile p s := by
  intro w
  induction w with
  | nil => intro s _; rfl
  | cons c w' ih =>
    intro s h
    simp only [List.all_cons, Bool.and_eq_true] at h
    simp only [List.cons_append, List.dropWhile, h.1]
    exact ih s h.2

theorem pyStrip_ws_append {w : Str} (s : Str) (h : w.all pyIsSpace = true) :
    pyStrip (w ++ s) = pyStrip s := by
  unfold pyStrip
  rw [dropWhile_all_append pyIsSpace w s h]

theorem classify_congr {request_id : Str} {s s' : Str} (h : pyStrip s = pyStrip s') :
    classify request_id s = classify request_id s' := by
  unfold classify
  rw [h]

theorem scanResult_congr {request_id : Str} {stdin stdin' : Nat → Str}
    (h : ∀ n, pyStrip (stdin n) = pyStrip (stdin' n)) :
    ∀ (fuel pos : Nat),
      scanResult request_id stdin fuel pos = scanResult request_id stdin' fuel pos := by
  intro fuel
  induction fuel with
  | zero => intro pos; rfl
  | succ fuel ih =>
    intro pos
    rw [scanResult_step, scanResult_step, classify_congr (h pos)]
    cases classify request_id (stdin' pos) with
    | skip => exact ih (pos + 1)
    | fail payload => rfl
    | attr => rfl
    | matched fields => rfl

theorem send_command_scan_eq {request_id command : Str} {params : Json}
    {stdin : Nat → Str} {k : Nat} (hk : k < 100)
    (hskip : ∀ j, j < k → classify request_id (stdin j) = LineStep.skip) :
    (PythonMCBridge.send_command true request_id command params stdin).result =
      scanResult request_id stdin (100 - k) k := by
  show scanResult request_id stdin 100 0 = _
  have h1 := scanResult_reach k (100 - k) 0 (by simpa using hskip)
  rw [Nat.zero_add, show k + (100 - k) = 100 by omega] at h1
  exact h1

theorem scanCount_congr {request_id : Str} {stdin stdin' : Nat → Str}
    (h : ∀ n, pyStrip (stdin n) = pyStrip (stdin' n)) :
    ∀ (fuel pos : Nat),
      scanCount request_id stdin fuel pos = scanCount request_id stdin' fuel pos := by
  intro fuel
  induction fuel with
  | zero => intro pos; rfl
  | succ fuel ih =>
    intro pos
    show (match classify request_id (stdin pos) with
          | LineStep.skip => scanCount request_id stdin fuel (pos + 1) + 1
          | _ => 1) =
         (match classify request_id (stdin' pos) with
          | LineStep.skip => scanCount request_id stdin' fuel (pos + 1) + 1
          | _ => 1)
    rw [classify_congr (h pos)]
    cases classify request_id (stdin' pos) with
    | skip => rw [ih (pos + 1)]
    | fail payload => rfl
    | attr => rfl
    | matched fields => rfl

/-! ### The claims -/

/-- Claim C1: a reply line whose parsed identifier does not equal the
identifier generated for the outstanding request is never returned as the
call's result.  Whenever `send_command` returns a value, there is a line
index `k` below the bound such that every earlier line was skipped (it
lacked the marker after stripping, or parsed to a reply object whose `id`
differs from the request's), the line at `k` parsed to a reply object whose
`id` equals the request identifier, and the returned value is that reply's
`result` field (defaulted to an empty object). -/
theorem send_command_returns_only_matching_reply :
    ∀ (request_id command : Str) (params : Json) (stdin : Nat → Str) (v : Json),
      (PythonMCBridge.send_command true request_id command params stdin).result = Except.ok v →
      ∃ k, k < 100 ∧
        (∀ j, j < k → classify request_id (stdin j) = LineStep.skip) ∧
        ∃ fields, classify request_id (stdin k) = LineStep.matched fields ∧
          dictGet fields (strL "id") = some (Json.str request_id) ∧
          v = (dictGet fields (strL "result")).getD (Json.obj []) := by
  intro request_id command params stdin v h
  have hs : scanResult request_id stdin 100 0 = Except.ok v := h
  obtain ⟨k, hk, hskip, fields, hm, _, hv⟩ := scanResult_ok_inv 100 0 v hs
  simp only [Nat.zero_add] at hskip hm
  exact ⟨k, hk, hskip, fields, hm, classify_matched_id hm, hv⟩

/-- Witness for C1: with an unrelated reply (identifier `other`) injected
before the real one (identifier `r1`), the call still returns the later
reply's result, and the conclusion of the claim theorem holds concretely. -/
theorem send_command_returns_only_matching_reply_witness :
    ∃ k, k < 100 ∧
      (∀ j, j < k → classify (strL "r1")
        ((fun n => if n = 0 then strL "BRIDGE:\x7b\"id\": \"other\", \"result\": 1\x7d"
          else strL "BRIDGE:\x7b\"id\": \"r1\", \"result\": 7\x7d") j) = LineStep.skip) ∧
      ∃ fields, classify (strL "r1")
          ((fun n => if n = 0 then strL "BRIDGE:\x7b\"id\": \"other\", \"result\": 1\x7d"
            else strL "BRIDGE:\x7b\"id\": \"r1\", \"result\": 7\x7d") k) = LineStep.matched fields ∧
        dictGet fields (strL "id") = some (Json.str (strL "r1")) ∧
        Json.num 7 = (dictGet fields (strL "result")).getD (Json.obj []) :=
  send_command_returns_only_matching_reply (strL "r1") (strL "cmd") (Json.obj [])
    (fun n => if n = 0 then strL "BRIDGE:\x7b\"id\": \"other\", \"result\": 1\x7d"
      else strL "BRIDGE:\x7b\"id\": \"r1\", \"result\": 7\x7d")
    (Json.num 7) rfl

/-- Claim C4: with the channel disabled, `send_command` fails with the
channel-disabled error, writes nothing to the outbound stream and reads
nothing from the inbound stream. -/
theorem send_command_disabled_writes_and_reads_nothing :
    ∀ (request_id command : Str) (params : Json) (stdin : Nat → Str),
      PythonMCBridge.send_command false request_id command params stdin =
        { result := Except.error BridgeError.channelDisabled,
          written := [],
          linesRead := 0 } :=
  fun _ _ _ _ => rfl

/-- Claim C7: `move(x, y, z)` on a camera node writes exactly one outbound
line, consisting of the marker followed by the JSON object with keys `id`,
`command` and `params` in which the command is `set_property`, the property
name is `position` and the value is the list `[x, y, z]`. -/
theorem camera_move_writes_one_set_property_line :
    ∀ (request_id node_id : Str) (x y z : Int) (stdin : Nat → Str),
      (CameraNode.move true request_id node_id x y z stdin).written =
        [marker ++ dumps (Json.obj
          [(strL "id", Json.str request_id),
           (strL "command", Json.str (strL "set_property")),
           (strL "params", Json.obj
             [(strL "node_id", Json.str node_id),
              (strL "property", Json.str (strL "position")),
              (strL "value", Json.arr [Json.num x, Json.num y, Json.num z])])])] :=
  fun _ _ _ _ _ _ => rfl

/-- Claim C5: when the matched reply carries `status = "error"`, the call
fails with the host-error exception carrying the reply's provided error
detail, and never returns a successful result. -/
theorem error_status_raises_host_error :
    ∀ (request_id command : Str) (params : Json) (stdin : Nat → Str)
      (k : Nat) (fields : List (Str × Json)) (m : Json),
      k < 100 →
      (∀ j, j < k → classify request_id (stdin j) = LineStep.skip) →
      classify request_id (stdin k) = LineStep.matched fields →
      dictGet fields (strL "status") = some (Json.str (strL "error")) →
      dictGet fields (strL "error") = some m →
      (PythonMCBridge.send_command true request_id command params stdin).result =
        Except.error (BridgeError.hostError m) ∧
      ∀ v, ¬ (PythonMCBridge.send_command true request_id command params stdin).result =
        Except.ok v := by
  intro request_id command params stdin k fields m hk hskip hm hstat herr
  have hres : (PythonMCBridge.send_command true request_id command params stdin).result =
      Except.error (BridgeError.hostError m) := by
    rw [send_command_scan_eq hk hskip, show 100 - k = (99 - k) + 1 by omega,
      scanResult_matched hm, if_pos hstat, herr]
    rfl
  exact ⟨hres, fun v hv => by rw [hres] at hv; exact absurd hv (by simp)⟩

/-- Witness for C5: a reply with `status = "error"` and detail `boom`,
after one skipped log line, raises the host error carrying `boom`. -/
theorem error_status_raises_host_error_witness :
    (PythonMCBridge.send_command true (strL "r1") (strL "cmd") (Json.obj [])
      (fun n => if n = 0 then strL "host log"
        else strL "BRIDGE:\x7b\"id\": \"r1\", \"status\": \"error\", \"error\": \"boom\"\x7d")).result =
      Except.error (BridgeError.hostError (Json.str (strL "boom"))) :=
  by
  refine (error_status_raises_host_error (strL "r1") (strL "cmd") (Json.obj [])
    (fun n => if n = 0 then strL "host log"
      else strL "BRIDGE:\x7b\"id\": \"r1\", \"status\": \"error\", \"error\": \"boom\"\x7d")
    1
    [(strL "id", Json.str (strL "r1")),
     (strL "status", Json.str (strL "error")),
     (strL "error", Json.str (strL "boom"))]
    (Json.str (strL "boom"))
    (by omega) ?_ rfl rfl rfl).1
  intro j hj
  have hj0 : j = 0 := by omega
  subst hj0
  rfl

/-- Claim C6: when the matched reply carries `status = "ok"`, the call
returns the reply's `result` value, and returns an empty object when the
`result` field is absent. -/
theorem ok_status_returns_result :
    ∀ (request_id command : Str) (params : Json) (stdin : Nat → Str)
      (k : Nat) (fields : List (Str × Json)),
      k < 100 →
      (∀ j, j < k → classify request_id (stdin j) = LineStep.skip) →
      classify request_id (stdin k) = LineStep.matched fields →
      dictGet fields (strL "status") = some (Json.str (strL "ok")) →
      ((PythonMCBridge.send_command true request_id command params stdin).result =
        Except.ok ((dictGet fields (strL "result")).getD (Json.obj []))) ∧
      (dictGet fields (strL "result") = none →
        (PythonMCBridge.send_command true request_id command params stdin).result =
          Except.ok (Json.obj [])) := by
  intro request_id command params stdin k fields hk hskip hm hstat
  have h1 : (PythonMCBridge.send_command true request_id command params stdin).result =
      Except.ok ((dictGet fields (strL "result")).getD (Json.obj [])) := by
    rw [send_command_scan_eq hk hskip, show 100 - k = (99 - k) + 1 by omega,
      scanResult_matched hm, if_neg (by rw [hstat]; decide)]
  refine ⟨h1, fun hres => ?_⟩
  rw [h1, hres]
  rfl

/-- Witness for C6: a matched `status = "ok"` reply with no `result` field
makes the call return the empty object. -/
theorem ok_status_returns_result_witness :
    (PythonMCBridge.send_command true (strL "r1") (strL "cmd") (Json.obj [])
      (fun _ => strL "BRIDGE:\x7b\"id\": \"r1\", \"status\": \"ok\"\x7d")).result =
      Except.ok (Json.obj []) :=
  (ok_status_returns_result (strL "r1") (strL "cmd") (Json.obj [])
    (fun _ => strL "BRIDGE:\x7b\"id\": \"r1\", \"status\": \"ok\"\x7d")
    0
    [(strL "id", Json.str (strL "r1")), (strL "status", Json.str (strL "ok"))]
    (by omega)
    (by intro j hj; exact absurd hj (by omega))
    rfl rfl).2 rfl

/-- Claim C9: only the exact status string `error` triggers the failure
path.  A matched reply whose `status` field is absent, or holds any value
other than the string `error` (another string such as `pending`, a number,
etc.), is treated as a success and its `result` value is returned. -/
theorem non_error_status_returns_result :
    ∀ (request_id command : Str) (params : Json) (stdin : Nat → Str)
      (k : Nat) (fields : List (Str × Json)),
      k < 100 →
      (∀ j, j < k → classify request_id (stdin j) = LineStep.skip) →
      classify request_id (stdin k) = LineStep.matched fields →
      ¬ dictGet fields (strL "status") = some (Json.str (strL "error")) →
      (PythonMCBridge.send_command true request_id command params stdin).result =
        Except.ok ((dictGet fields (strL "result")).getD (Json.obj [])) := by
  intro request_id command params stdin k fields hk hskip hm hstat
  rw [send_command_scan_eq hk hskip, show 100 - k = (99 - k) + 1 by omega,
    scanResult_matched hm, if_neg hstat]

/-- Witness for C9: a matched reply with `status = "pending"` is treated
as a success and its `result` value `5` is returned. -/
theorem non_error_status_returns_result_witness :
    (PythonMCBridge.send_command true (strL "r1") (strL "cmd") (Json.obj [])
      (fun _ => strL "BRIDGE:\x7b\"id\": \"r1\", \"status\": \"pending\", \"result\": 5\x7d")).result =
      Except.ok (Json.num 5) :=
  by
  refine Eq.trans (non_error_status_returns_result (strL "r1") (strL "cmd") (Json.obj [])
    (fun _ => strL "BRIDGE:\x7b\"id\": \"r1\", \"status\": \"pending\", \"result\": 5\x7d")
    0
    [(strL "id", Json.str (strL "r1")),
     (strL "status", Json.str (strL "pending")),
     (strL "result", Json.num 5)]
    (by omega) ?_ rfl (by decide)) rfl
  intro j hj
  exact absurd hj (by omega)

/-- Counterexample to claim C2 as stated: the very next inbound line is a
well-formed matching reply, yet the call raises the JSON parse error of the
malformed marker-prefixed line `BRIDGE:notjson` read just before it, instead
of silently discarding that line and continuing the scan. -/
theorem malformed_marker_line_raises_cex :
    classify (strL "r1") (strL "BRIDGE:\x7b\"id\": \"r1\", \"result\": 7\x7d") =
      LineStep.matched [(strL "id", Json.str (strL "r1")), (strL "result", Json.num 7)] ∧
    (PythonMCBridge.send_command true (strL "r1") (strL "cmd") (Json.obj [])
      (fun n => if n = 0 then strL "BRIDGE:notjson"
        else strL "BRIDGE:\x7b\"id\": \"r1\", \"result\": 7\x7d")).result =
      Except.error (BridgeError.parseError (strL "notjson")) :=
  ⟨rfl, rfl⟩

/-- Claim C2, amended: a marker-prefixed inbound line whose remainder fails
to parse as JSON makes `send_command` raise the parse error of that line
at once; the malformed line is not skipped and the scan does not continue
to later lines. -/
theorem malformed_marker_line_aborts_scan :
    ∀ (request_id command : Str) (params : Json) (stdin : Nat → Str)
      (k : Nat) (payload : Str),
      k < 100 →
      (∀ j, j < k → classify request_id (stdin j) = LineStep.skip) →
      classify request_id (stdin k) = LineStep.fail payload →
      (PythonMCBridge.send_command true request_id command params stdin).result =
        Except.error (BridgeError.parseError payload) := by
  intro request_id command params stdin k payload hk hskip hf
  rw [send_command_scan_eq hk hskip, show 100 - k = (99 - k) + 1 by omega,
    scanResult_fail hf]

/-- Witness for the amended C2: a malformed marker line as the first inbound
line raises its parse error. -/
theorem malformed_marker_line_aborts_scan_witness :
    (PythonMCBridge.send_command true (strL "r1") (strL "cmd") (Json.obj [])
      (fun _ => strL "BRIDGE:oops")).result =
      Except.error (BridgeError.parseError (strL "oops")) :=
  by
  refine malformed_marker_line_aborts_scan (strL "r1") (strL "cmd") (Json.obj [])
    (fun _ => strL "BRIDGE:oops") 0 (strL "oops") (by omega) ?_ rfl
  intro j hj
  exact absurd hj (by omega)

/-- Counterexample to claim C3 as stated: with every inbound line being the
malformed marker line `BRIDGE:x`, none of the first 100 lines yields a
matching reply, yet the call fails with the JSON parse error of the first
line, not with the timeout error. -/
theorem timeout_on_exhaustion_cex :
    ((List.range 100).all
      (fun i => ! lineMatchB (strL "r1") ((fun _ : Nat => strL "BRIDGE:x") i))) = true ∧
    (PythonMCBridge.send_command true (strL "r1") (strL "cmd") (Json.obj [])
      (fun _ => strL "BRIDGE:x")).result = Except.error (BridgeError.parseError (strL "x")) ∧
    ¬ (PythonMCBridge.send_command true (strL "r1") (strL "cmd") (Json.obj [])
      (fun _ => strL "BRIDGE:x")).result = Except.error BridgeError.timeout :=
  ⟨rfl, rfl, by decide⟩

/-- Claim C3, amended: if each of the first 100 inbound lines is skipped
(it lacks the marker after stripping, or parses to a reply object whose
identifier differs from the request's), the call fails with the timeout
error; and if a matching reply appears within the first 100 lines, the call
never fails with the timeout error.  (A marker line that fails to parse, or
parses to a non-object, aborts the scan with that error instead.) -/
theorem scan_bound_timeout_dichotomy :
    (∀ (request_id command : Str) (params : Json) (stdin : Nat → Str),
      (∀ j, j < 100 → classify request_id (stdin j) = LineStep.skip) →
      (PythonMCBridge.send_command true request_id command params stdin).result =
        Except.error BridgeError.timeout) ∧
    (∀ (request_id command : Str) (params : Json) (stdin : Nat → Str) (k : Nat),
      k < 100 → lineMatchB request_id (stdin k) = true →
      ¬ (PythonMCBridge.send_command true request_id command params stdin).result =
        Except.error BridgeError.timeout) := by
  constructor
  · intro request_id command params stdin h
    show scanResult request_id stdin 100 0 = _
    have h1 := scanResult_reach 100 0 0 (by simpa using h)
    rw [show (100 : Nat) + 0 = 100 by omega] at h1
    rw [h1]
    rfl
  · intro request_id command params stdin k hk hmatch
    show ¬ scanResult request_id stdin 100 0 = _
    exact scanResult_match_no_timeout 100 0 k hk (by simpa using hmatch)

/-- Witness for the amended C3: a stream of pure noise lines times out,
while a stream whose first line is a matching reply does not. -/
theorem scan_bound_timeout_dichotomy_witness :
    (PythonMCBridge.send_command true (strL "r1") (strL "cmd") (Json.obj [])
      (fun _ => strL "noise")).result = Except.error BridgeError.timeout ∧
    ¬ (PythonMCBridge.send_command true (strL "r1") (strL "cmd") (Json.obj [])
      (fun _ => strL "BRIDGE:\x7b\"id\": \"r1\", \"result\": 7\x7d")).result =
        Except.error BridgeError.timeout :=
  ⟨scan_bound_timeout_dichotomy.1 (strL "r1") (strL "cmd") (Json.obj [])
      (fun _ => strL "noise") (fun j hj => rfl),
   scan_bound_timeout_dichotomy.2 (strL "r1") (strL "cmd") (Json.obj [])
      (fun _ => strL "BRIDGE:\x7b\"id\": \"r1\", \"result\": 7\x7d") 0 (by omega) rfl⟩

/-- Claim C8: the value returned by a successful `list_nodes` call is the
reply's result when that result is a sequence, and the empty sequence when
it is not; the call does not fail on a non-sequence result. -/
theorem list_nodes_normalizes_result :
    ∀ (bridge_enabled : Bool) (request_id : Str) (stdin : Nat → Str) (v : Json),
      (PythonMCBridge.send_command bridge_enabled request_id (strL "list_nodes")
        (Json.obj []) stdin).result = Except.ok v →
      ((Engine.list_nodes bridge_enabled request_id stdin).result =
        Except.ok (listNormalize v)) ∧
      (∀ l, v = Json.arr l → listNormalize v = v) ∧
      ((∀ l, ¬ v = Json.arr l) → listNormalize v = Json.arr []) := by
  intro bridge_enabled request_id stdin v h
  refine ⟨?_, ?_, ?_⟩
  · show ((PythonMCBridge.send_command bridge_enabled request_id (strL "list_nodes")
      (Json.obj []) stdin).result.map listNormalize) = _
    rw [h]
    rfl
  · intro l hl
    subst hl
    rfl
  · intro hnl
    cases v with
    | arr l => exact absurd rfl (hnl l)
    | null => rfl
    | bool b => rfl
    | num n => rfl
    | str s => rfl
    | obj fields => rfl

/-- Witness for C8: a successful reply whose result is the number `3` (not
a sequence) makes `list_nodes` return the empty sequence. -/
theorem list_nodes_normalizes_result_witness :
    (Engine.list_nodes true (strL "r1")
      (fun _ => strL "BRIDGE:\x7b\"id\": \"r1\", \"status\": \"ok\", \"result\": 3\x7d")).result =
      Except.ok (Json.arr []) :=
  (list_nodes_normalizes_result true (strL "r1")
    (fun _ => strL "BRIDGE:\x7b\"id\": \"r1\", \"status\": \"ok\", \"result\": 3\x7d")
    (Json.num 3) rfl).1

/-- Claim C10: stripping happens before the marker test.  Leading
whitespace does not change the stripped line, and two inbound streams
whose lines agree after stripping are treated identically by
`send_command`, so a line whose marker is preceded only by whitespace is
parsed as protocol traffic exactly like the unprefixed line. -/
theorem strip_before_marker_test :
    (∀ (w s : Str), w.all pyIsSpace = true → pyStrip (w ++ s) = pyStrip s) ∧
    (∀ (bridge_enabled : Bool) (request_id command : Str) (params : Json)
      (stdin stdin' : Nat → Str),
      (∀ n, pyStrip (stdin n) = pyStrip (stdin' n)) →
      PythonMCBridge.send_command bridge_enabled request_id command params stdin =
        PythonMCBridge.send_command bridge_enabled request_id command params stdin') := by
  constructor
  · exact fun w s h => pyStrip_ws_append s h
  · intro bridge_enabled request_id command params stdin stdin' h
    cases bridge_enabled with
    | false => rfl
    | true =>
      show ({ result := scanResult request_id stdin 100 0,
              written := [marker ++ dumps (Json.obj
                [(strL "id", Json.str request_id),
                 (strL "command", Json.str command),
                 (strL "params", params)])],
              linesRead := scanCount request_id stdin 100 0 } : CallResult) =
           ({ result := scanResult request_id stdin' 100 0,
              written := [marker ++ dumps (Json.obj
                [(strL "id", Json.str request_id),
                 (strL "command", Json.str command),
                 (strL "params", params)])],
              linesRead := scanCount request_id stdin' 100 0 } : CallResult)
      rw [scanResult_congr h 100 0, scanCount_congr h 100 0]

/-- Witness for C10: a matching reply line preceded by spaces is stripped
to the plain marker line, and the whole call behaves identically on the
whitespace-prefixed and the plain stream. -/
theorem strip_before_marker_test_witness :
    pyStrip (strL "   " ++ strL "BRIDGE:\x7b\"id\": \"r1\", \"result\": 7\x7d") =
      pyStrip (strL "BRIDGE:\x7b\"id\": \"r1\", \"result\": 7\x7d") ∧
    PythonMCBridge.send_command true (strL "r1") (strL "cmd") (Json.obj [])
      (fun _ => strL "   BRIDGE:\x7b\"id\": \"r1\", \"result\": 7\x7d") =
    PythonMCBridge.send_command true (strL "r1") (strL "cmd") (Json.obj [])
      (fun _ => strL "BRIDGE:\x7b\"id\": \"r1\", \"result\": 7\x7d") :=
  ⟨strip_before_marker_test.1 (strL "   ") (strL "BRIDGE:\x7b\"id\": \"r1\", \"result\": 7\x7d")
    (by decide),
   strip_before_marker_test.2 true (strL "r1") (strL "cmd") (Json.obj [])
    (fun _ => strL "   BRIDGE:\x7b\"id\": \"r1\", \"result\": 7\x7d")
    (fun _ => strL "BRIDGE:\x7b\"id\": \"r1\", \"result\": 7\x7d")
    (fun n => rfl)⟩
